import Mathlib

/-!
Verification of a minimal FastAPI + MongoDB CRUD backend.

The development shallowly embeds the repository's three Python modules:

* `schemas.py` — ships no live Pydantic model (the example `User` is inside a
  string literal), modelled by the empty model list `schemas_models`.
* `database.py` — module-level connection from environment variables plus four
  document-access wrappers (`create_document`, `get_documents`,
  `update_document`, `delete_document`).
* `main.py` — the HTTP route handlers.

Python dicts are mutable objects passed by reference, so dicts live in an
explicit `Store` (a heap of documents indexed by `Ref`); `.copy()` and
`model_dump()` allocate fresh cells.  Each embedded function additionally
returns the list of MongoDB driver calls it issued (`DriverCall`), and driver
outcomes (inserted id, modified/deleted counts, cursor contents, raised
exceptions) enter as oracle parameters of type `Except String _`, standing for
the driver either raising an exception with message `e` or returning a value.
`datetime.now(timezone.utc)` is abstracted to a tick count passed in by the
caller.  HTTP responses are `HResp α`: either a success body of the handler's
shape or `HTTPException(status_code, detail)`.
-/

/-- JSON-like values stored in documents. `time` abstracts `datetime` objects
to a tick count; `oid` is a bson `ObjectId`. -/
inductive Value where
  | str (s : String)
  | int (n : Int)
  | bool (b : Bool)
  | time (t : Nat)
  | oid (s : String)
  | null
  deriving Repr, DecidableEq

/-- A Python dict with string keys, as an association list in insertion order.
Assigning to an existing key overwrites it in place (`setKey`). -/
abbrev Doc := List (String × Value)

/-- Python dict assignment `d[k] = v`: overwrite in place if the key exists,
else append at the end (dicts preserve insertion order). -/
def setKey : Doc → String → Value → Doc
  | [], k, v => [(k, v)]
  | (k₁, v₁) :: rest, k, v =>
    if k₁ = k then (k, v) :: rest else (k₁, v₁) :: setKey rest k v

/-- Python dict lookup `d.get(k)`. -/
def lookupKey : Doc → String → Option Value
  | [], _ => none
  | (k₁, v₁) :: rest, k => if k₁ = k then some v₁ else lookupKey rest k

/-- References to mutable Python dicts. -/
abbrev Ref := Nat

/-- A heap of Python dicts: `heap r` is the dict behind reference `r`; refs
below `next` are allocated. -/
structure Store where
  heap : Ref → Doc
  next : Nat

/-- Dereference. -/
def Store.get (s : Store) (r : Ref) : Doc := s.heap r

/-- Allocate a fresh dict (models `.copy()` and `model_dump()`). -/
def Store.alloc (s : Store) (d : Doc) : Store × Ref :=
  (⟨fun q => if q = s.next then d else s.heap q, s.next + 1⟩, s.next)

/-- In-place dict assignment through a reference: `(*r)[k] = v`. -/
def Store.setK (s : Store) (r : Ref) (k : String) (v : Value) : Store :=
  ⟨fun q => if q = r then setKey (s.heap r) k v else s.heap q, s.next⟩

/-- The argument `Union[BaseModel, dict]` of the document-access functions: a
Pydantic model instance (carrying the dict its `model_dump` produces) or a
reference to a caller-owned dict. -/
inductive PyData where
  | model (fields : Doc)
  | dict (r : Ref)

/-- One MongoDB driver call, with the arguments the repository forwards.
`updateOne` records the document placed under the `$set` key. -/
inductive DriverCall where
  | listCollections
  | countDocs (coll : String) (filter : Doc)
  | findAll (coll : String) (filter : Doc) (lim : Option Int)
  | findPage (coll : String) (filter : Doc) (skip lim : Int)
  | insertOne (coll : String) (doc : Doc)
  | updateOne (coll : String) (filter : Doc) (setDoc : Doc)
  | deleteOne (coll : String) (filter : Doc)
  deriving Repr, DecidableEq

/-- Python truthiness of an optional string (`os.getenv` result): `None` and
the empty string are falsy. -/
def pyTruthyStr : Option String → Bool
  | none => false
  | some s => s ≠ ""

/-- database.py module body: `db = _client[database_name]` when
`if database_url and database_name:` holds, else `db` stays `None`.  The
handle is identified by the database name it points at. -/
def moduleDb (database_url database_name : Option String) : Option String :=
  if pyTruthyStr database_url && pyTruthyStr database_name then database_name
  else none

/-- database.create_document: convert a Pydantic model via `model_dump()` or
copy the dict, stamp `created_at` and `updated_at` (two separate
`datetime.now` calls `now₁`, `now₂`), insert, and return
`str(result.inserted_id)`.  `insertResult` is the driver outcome. -/
def create_document (db : Option String) (st : Store) (collection_name : String)
    (data : PyData) (now₁ now₂ : Nat) (insertResult : Except String String) :
    Store × List DriverCall × Except String String :=
  if db = none then
    (st, [], .error "Database not available. Check DATABASE_URL and DATABASE_NAME environment variables.")
  else
    let ar := match data with
      | .model fields => st.alloc fields
      | .dict r₀ => st.alloc (st.get r₀)
    let st₂ := (ar.1.setK ar.2 "created_at" (.time now₁)).setK ar.2 "updated_at" (.time now₂)
    let call := DriverCall.insertOne collection_name (st₂.get ar.2)
    match insertResult with
    | .error e => (st₂, [call], .error e)
    | .ok rid => (st₂, [call], .ok rid)

/-- database.get_documents: `find(filter_dict or \x7b\x7d)` then
`cursor.limit(limit)` only when `limit` is truthy (`None` and `0` skip it).
`findResult` is the cursor contents the driver returns for the issued call. -/
def get_documents (db : Option String) (collection_name : String)
    (filter_dict : Option Doc) (limit : Option Int)
    (findResult : Except String (List Doc)) :
    List DriverCall × Except String (List Doc) :=
  if db = none then
    ([], .error "Database not available. Check DATABASE_URL and DATABASE_NAME environment variables.")
  else
    let f := match filter_dict with
      | none => []
      | some d => if d = [] then [] else d
    let lim : Option Int := match limit with
      | none => none
      | some l => if l = 0 then none else some l
    let call := DriverCall.findAll collection_name f lim
    match findResult with
    | .error e => ([call], .error e)
    | .ok docs => ([call], .ok docs)

/-- database.update_document: convert / copy `update_data`, stamp
`updated_at`, issue `update_one(filter_dict, \x7b"$set": update_dict\x7d)` and
return `modified_count > 0`.  `updateResult` is the driver's
`modified_count`. -/
def update_document (db : Option String) (st : Store) (collection_name : String)
    (filter_dict : Doc) (update_data : PyData) (now : Nat)
    (updateResult : Except String Nat) :
    Store × List DriverCall × Except String Bool :=
  if db = none then
    (st, [], .error "Database not available. Check DATABASE_URL and DATABASE_NAME environment variables.")
  else
    let ar := match update_data with
      | .model fields => st.alloc fields
      | .dict r₀ => st.alloc (st.get r₀)
    let st₂ := ar.1.setK ar.2 "updated_at" (.time now)
    let call := DriverCall.updateOne collection_name filter_dict (st₂.get ar.2)
    match updateResult with
    | .error e => (st₂, [call], .error e)
    | .ok mc => (st₂, [call], .ok (decide (mc > 0)))

/-- database.delete_document: issue `delete_one(filter_dict)` and return
`deleted_count > 0`.  `deleteResult` is the driver's `deleted_count`. -/
def delete_document (db : Option String) (collection_name : String)
    (filter_dict : Doc) (deleteResult : Except String Nat) :
    List DriverCall × Except String Bool :=
  if db = none then
    ([], .error "Database not initialized. Call enable-database first.")
  else
    let call := DriverCall.deleteOne collection_name filter_dict
    match deleteResult with
    | .error e => ([call], .error e)
    | .ok dc => ([call], .ok (decide (dc > 0)))

/-- An HTTP handler outcome: a success body of the handler's shape, or an
`HTTPException(status_code, detail)` response. -/
inductive HResp (α : Type) where
  | success (body : α)
  | failure (status : Nat) (detail : String)
  deriving Repr, DecidableEq

/-- Python `str()` on a stored value (used for `str(doc["_id"])`). -/
def pyStr : Value → String
  | .str s => s
  | .int n => toString n
  | .bool b => if b then "True" else "False"
  | .time t => "datetime(" ++ toString t ++ ")"
  | .oid s => s
  | .null => "None"

/-- A hexadecimal digit (0-9, a-f, A-F) by character code. -/
def isHexChar (c : Char) : Bool :=
  (48 ≤ c.toNat && c.toNat ≤ 57) || (97 ≤ c.toNat && c.toNat ≤ 102) ||
    (65 ≤ c.toNat && c.toNat ≤ 70)

/-- ObjectId parsing: `bson.ObjectId(s)` succeeds exactly on 24-character hex
strings. -/
def isValidObjectId (s : String) : Bool :=
  s.length = 24 && s.toList.all isHexChar

/-- starlette `HTTPException.__str__`: `f"\x7bstatus_code\x7d: \x7bdetail\x7d"`. -/
def pyStrHTTPException (status : Nat) (detail : String) : String :=
  toString status ++ ": " ++ detail

/-- Python `repr` of a list of strings, as interpolated into
`f"Validation failed: \x7bvalidation.get(\x27errors\x27, [])\x7d"`. -/
def pyShowList (l : List String) : String :=
  "[" ++ String.intercalate ", " (l.map fun s => "\x27" ++ s ++ "\x27") ++ "]"

/-- A live Pydantic model class in the schemas module: its class name, the
field lists its JSON schema reports, whether `model_json_schema()` succeeds,
and its `model_validate` (`none` = valid, `some errs` = `ValidationError`
carrying `errs = e.errors()`). -/
structure PydanticModel where
  name : String
  fields : List String
  required : List String
  schemaOk : Bool
  validate : Doc → Option (List String)

/-- schemas.py module body: only a docstring, a string literal holding the
example `User` model, and comments — no live Pydantic model, so reflection
over the module yields the empty list. -/
def schemas_models : List PydanticModel := []

/-- Generic association-list overwrite used for the `schema_map` dict. -/
def setAssoc {α : Type} : List (String × α) → String → α → List (String × α)
  | [], k, v => [(k, v)]
  | (k₁, v₁) :: rest, k, v =>
    if k₁ = k then (k, v) :: rest else (k₁, v₁) :: setAssoc rest k v

/-- Generic association-list lookup. -/
def lookupAssoc {α : Type} : List (String × α) → String → Option α
  | [], _ => none
  | (k₁, v₁) :: rest, k => if k₁ = k then some v₁ else lookupAssoc rest k

/-- One entry of the `/api/database/schemas` response. -/
structure SchemaInfo where
  fields : List String
  required_fields : List String
  deriving Repr, DecidableEq

/-- GET /api/database/schemas: reflect over the schemas module; a model whose
`model_json_schema()` raises is printed and skipped; `ImportError` gives 400
and any other exception (oracle `exn`) gives 500. -/
def get_all_schemas (importOk : Bool) (models : List PydanticModel)
    (exn : Option String) : HResp (List (String × SchemaInfo)) :=
  if !importOk then
    .failure 400 "Schemas module not found. Define schemas in schemas.py"
  else
    match exn with
    | some e => .failure 500 ("Error loading schemas: " ++ e)
    | none =>
      .success ((models.filter (·.schemaOk)).map fun m =>
        (m.name, ⟨m.fields, m.required⟩))

/-- Body of the validate endpoint: the `valid` flag plus the optional
skip message and optional extracted `errors` list. -/
structure ValidateBody where
  valid : Bool
  message : Option String
  errors : Option (List String)
  deriving Repr, DecidableEq

/-- Python `str.lower()` on a class name, character by character. -/
def pyLower (s : String) : String := ⟨s.data.map Char.toLower⟩

/-- The `schema_map` of the validate endpoint: class name lowercased to
collection key, later members overwriting earlier ones. -/
def schemaMap (models : List PydanticModel) : List (String × PydanticModel) :=
  models.foldl (fun m p => setAssoc m (pyLower p.name) p) []

/-- POST /api/database/collections/(collection_name)/validate: look the
collection up in `schemaMap`; report valid with a skip message when absent,
else run `model_validate`; any unexpected exception (oracle `exn`) gives
500. -/
def validate_document (models : List PydanticModel) (collection_name : String)
    (document : Doc) (exn : Option String) : HResp ValidateBody :=
  match exn with
  | some e => .failure 500 ("Error validating document: " ++ e)
  | none =>
    match lookupAssoc (schemaMap models) collection_name with
    | none =>
      .success ⟨true, some "No schema defined for this collection, skipping validation", none⟩
    | some schema =>
      match schema.validate document with
      | none => .success ⟨true, none, none⟩
      | some errs => .success ⟨false, none, some errs⟩

/-- GET / -/
def read_root : HResp String := .success "Hello from FastAPI Backend!"

/-- GET /api/hello -/
def hello : HResp String := .success "Hello from the backend API!"

/-- Body of the GET /test response dict. -/
structure TestBody where
  backend : String
  database : String
  database_url : String
  database_name : String
  connection_status : String
  collections : List String
  deriving Repr, DecidableEq

/-- GET /test: builds a status dict; every branch returns it with HTTP 200.
`importOk` is whether `from database import db` succeeds, `listResult` the
outcome of `db.list_collection_names()`, and `urlSet`/`nameSet` whether the
environment variables are set. -/
def test_database (importOk : Bool) (db : Option String)
    (listResult : Except String (List String)) (urlSet nameSet : Bool) :
    HResp TestBody :=
  let dbField : String :=
    if !importOk then "❌ Database module not found (run enable-database first)"
    else match db with
      | none => "⚠️  Available but not initialized"
      | some _ =>
        match listResult with
        | .ok _ => "✅ Connected & Working"
        | .error e => "⚠️  Connected but Error: " ++ e.take 50
  let connField : String :=
    if importOk && db.isSome then "Connected" else "Not Connected"
  let colsField : List String :=
    if importOk then
      match db, listResult with
      | some _, .ok cols => cols.take 10
      | _, _ => []
    else []
  .success ⟨"✅ Running", dbField,
    if urlSet then "✅ Set" else "❌ Not Set",
    if nameSet then "✅ Set" else "❌ Not Set",
    connField, colsField⟩

/-- The per-collection counting loop of the list_collections endpoint:
`db[c].count_documents(\x7b\x7d)` for each name, stopping at the first driver
exception.  Returns the issued calls and either the info list or the
exception message. -/
def countAll (countResult : String → Except String Nat) :
    List String → List DriverCall × Except String (List (String × Nat))
  | [] => ([], .ok [])
  | n :: rest =>
    match countResult n with
    | .error e => ([.countDocs n []], .error e)
    | .ok c =>
      let tail := countAll countResult rest
      (.countDocs n [] :: tail.1,
        match tail.2 with
        | .error e => .error e
        | .ok l => .ok ((n, c) :: l))

/-- GET /api/database/collections.  This handler has no
`except HTTPException: raise` clause, so the `HTTPException(503)` raised when
`db is None` is caught by the broad `except Exception` and re-raised as a 500
whose detail embeds `str(e)` of the original exception. -/
def list_collections (db : Option String)
    (listResult : Except String (List String))
    (countResult : String → Except String Nat) :
    List DriverCall × HResp (List (String × Nat)) :=
  let tryBody : List DriverCall × Except String (List (String × Nat)) :=
    if db = none then
      ([], .error (pyStrHTTPException 503 "Database not connected"))
    else
      match listResult with
      | .error e => ([.listCollections], .error e)
      | .ok names =>
        let counted := countAll countResult names
        (.listCollections :: counted.1, counted.2)
  match tryBody with
  | (calls, .ok info) => (calls, .success info)
  | (calls, .error e) =>
    (calls, .failure 500 ("Error listing collections: " ++ e))

/-- The `filter` query string of the collection-listing endpoint: its raw text
plus the outcome of `json.loads` on it (`none` = `JSONDecodeError`). -/
structure JsonText where
  raw : String
  parsed : Option Doc
  deriving Repr, DecidableEq

/-- Body of the GET /api/database/collections/(collection_name) response. -/
structure CollectionDocsBody where
  collection : String
  documents : List Doc
  total : Nat
  limit : Int
  skip : Int
  deriving Repr, DecidableEq

/-- The `_id`-to-string conversion loop: `doc["_id"] = str(doc["_id"])` for
each returned document that has an `_id`. -/
def convertId (d : Doc) : Doc :=
  match lookupKey d "_id" with
  | some v => setKey d "_id" (.str (pyStr v))
  | none => d

/-- Exceptions inside a handler body: an `HTTPException` or a plain one. -/
inductive PyErr where
  | http (status : Nat) (detail : String)
  | exc (msg : String)

/-- GET /api/database/collections/(collection_name), query params
`limit` (default 100), `skip` (default 0), `filter` (default None).  Driver
oracles: `listResult` for `list_collection_names`, `countResult` for
`count_documents(filter_dict)`, `findResult` for
`find(filter_dict).skip(skip).limit(limit)`.  `except HTTPException: raise`
keeps HTTP errors; any other exception becomes a 500. -/
def get_collection_documents (db : Option String) (collection_name : String)
    (listResult : Except String (List String))
    (countResult : Doc → Except String Nat)
    (findResult : Doc → Int → Int → Except String (List Doc))
    (limit : Int := 100) (skip : Int := 0) (filter : Option JsonText := none) :
    List DriverCall × HResp CollectionDocsBody :=
  let tryBody : List DriverCall × Except PyErr CollectionDocsBody :=
    if db = none then ([], .error (.http 503 "Database not connected"))
    else
      match listResult with
      | .error e => ([.listCollections], .error (.exc e))
      | .ok names =>
        if collection_name ∉ names then
          ([.listCollections],
            .error (.http 404 ("Collection \x27" ++ collection_name ++ "\x27 not found")))
        else
          let limit₁ := min limit 1000
          let filterParse : Except PyErr Doc :=
            match filter with
            | none => .ok []
            | some jt =>
              if jt.raw = "" then .ok []
              else match jt.parsed with
                | none => .error (.http 400 "Invalid filter JSON")
                | some d => .ok d
          match filterParse with
          | .error pe => ([.listCollections], .error pe)
          | .ok filter_dict =>
            match countResult filter_dict with
            | .error e =>
              ([.listCollections, .countDocs collection_name filter_dict], .error (.exc e))
            | .ok total =>
              match findResult filter_dict skip limit₁ with
              | .error e =>
                ([.listCollections, .countDocs collection_name filter_dict,
                  .findPage collection_name filter_dict skip limit₁], .error (.exc e))
              | .ok docs =>
                ([.listCollections, .countDocs collection_name filter_dict,
                  .findPage collection_name filter_dict skip limit₁],
                  .ok ⟨collection_name, docs.map convertId, total, limit₁, skip⟩)
  match tryBody with
  | (calls, .ok body) => (calls, .success body)
  | (calls, .error (.http s d)) => (calls, .failure s d)
  | (calls, .error (.exc e)) =>
    (calls, .failure 500 ("Error fetching documents: " ++ e))

/-- Body of the create endpoint response. -/
structure CreateBody where
  id : String
  message : String
  deriving Repr, DecidableEq

/-- Body of the update / delete endpoint responses. -/
structure MessageBody where
  message : String
  deriving Repr, DecidableEq

/-- POST /api/database/collections/(collection_name)/create: 503 when `db` is
None, then validate via the validate handler (a 400 on `valid == False`,
issuing no write), then call database.create_document on the request dict
`docRef`.  `except HTTPException: raise` keeps HTTP errors; anything else
becomes a 500. -/
def ep_create_document (db : Option String) (models : List PydanticModel)
    (st : Store) (collection_name : String) (docRef : Ref)
    (validateExn : Option String) (now₁ now₂ : Nat)
    (insertResult : Except String String) :
    Store × List DriverCall × HResp CreateBody :=
  if db = none then (st, [], .failure 503 "Database not connected")
  else
    match validate_document models collection_name (st.get docRef) validateExn with
    | .failure s d => (st, [], .failure s d)
    | .success v =>
      if !v.valid then
        (st, [], .failure 400 ("Validation failed: " ++ pyShowList (v.errors.getD [])))
      else
        match create_document db st collection_name (.dict docRef) now₁ now₂ insertResult with
        | (st₂, calls, .error e) =>
          (st₂, calls, .failure 500 ("Error creating document: " ++ e))
        | (st₂, calls, .ok docId) =>
          (st₂, calls, .success ⟨docId, "Document created in " ++ collection_name⟩)

/-- PUT /api/database/collections/(collection_name)/(doc_id): 503 when `db` is
None, validate (400 on failure, before any write), parse `doc_id` as an
ObjectId (400 on failure), call database.update_document with filter
`\x7b"_id": obj_id\x7d`, and 404 when it returns False. -/
def ep_update_document (db : Option String) (models : List PydanticModel)
    (st : Store) (collection_name : String) (doc_id : String) (docRef : Ref)
    (validateExn : Option String) (now : Nat)
    (updateResult : Except String Nat) :
    Store × List DriverCall × HResp MessageBody :=
  if db = none then (st, [], .failure 503 "Database not connected")
  else
    match validate_document models collection_name (st.get docRef) validateExn with
    | .failure s d => (st, [], .failure s d)
    | .success v =>
      if !v.valid then
        (st, [], .failure 400 ("Validation failed: " ++ pyShowList (v.errors.getD [])))
      else if !isValidObjectId doc_id then
        (st, [], .failure 400 "Invalid document ID format")
      else
        match update_document db st collection_name [("_id", .oid doc_id)]
            (.dict docRef) now updateResult with
        | (st₂, calls, .error e) =>
          (st₂, calls, .failure 500 ("Error updating document: " ++ e))
        | (st₂, calls, .ok success) =>
          if !success then (st₂, calls, .failure 404 "Document not found")
          else
            (st₂, calls,
              .success ⟨"Document " ++ doc_id ++ " updated in " ++ collection_name⟩)

/-- DELETE /api/database/collections/(collection_name)/(doc_id): 503 when `db`
is None, parse `doc_id` as an ObjectId (400 on failure), call
database.delete_document with filter `\x7b"_id": obj_id\x7d`, and 404 when it
returns False. -/
def ep_delete_document (db : Option String) (collection_name : String)
    (doc_id : String) (deleteResult : Except String Nat) :
    List DriverCall × HResp MessageBody :=
  if db = none then ([], .failure 503 "Database not connected")
  else if !isValidObjectId doc_id then
    ([], .failure 400 "Invalid document ID format")
  else
    match delete_document db collection_name [("_id", .oid doc_id)] deleteResult with
    | (calls, .error e) => (calls, .failure 500 ("Error deleting document: " ++ e))
    | (calls, .ok success) =>
      if !success then (calls, .failure 404 "Document not found")
      else
        (calls, .success ⟨"Document " ++ doc_id ++ " deleted from " ++ collection_name⟩)

/-- MongoDB `\x7bk: v\x7d` equality filter matching. -/
def matchesFilter (doc filter : Doc) : Bool :=
  filter.all fun kv => lookupKey doc kv.1 = some kv.2

/-- Applying a `$set` document to a stored document. -/
def applySet (doc u : Doc) : Doc :=
  u.foldl (fun d kv => setKey d kv.1 kv.2) doc

/-- MongoDB `update_one(filter, \x7b"$set": u\x7d)` on an in-memory collection:
update the first matching document; `matched_count` counts the match and
`modified_count` counts it only when the `$set` actually changed it. -/
def mongoUpdateOne : List Doc → Doc → Doc → List Doc × Nat × Nat
  | [], _, _ => ([], 0, 0)
  | d :: rest, f, u =>
    if matchesFilter d f then
      let d₂ := applySet d u
      (d₂ :: rest, 1, if d₂ = d then 0 else 1)
    else
      let tail := mongoUpdateOne rest f u
      (d :: tail.1, tail.2.1, tail.2.2)

/-- The dict contents a `Union[BaseModel, dict]` argument stands for: a
model's `model_dump`, or the dict behind the reference. -/
def pyDataDoc (st : Store) : PyData → Doc
  | .model fields => fields
  | .dict r => st.get r

/-- A sample heap holding one caller-owned dict at reference 0. -/
def sampleStore : Store :=
  ⟨fun r => if r = 0 then [("email", .str "user@example.com")] else [], 1⟩

/-- A sample 24-character hex ObjectId string. -/
def sampleOid : String := "507f1f77bcf86cd799439011"

/-- A sample heap whose caller dict at reference 0 carries a `username`, so
it validates against the sample `User` model. -/
def userStore : Store :=
  ⟨fun r => if r = 0 then
      [("username", .str "john_doe"), ("email", .str "john@example.com")]
    else [], 1⟩

/-- A sample live Pydantic model named `User`, whose `model_validate` requires
a `username` field. -/
def userModel : PydanticModel :=
  ⟨"User", ["username", "email"], ["username"], true,
    fun d => if lookupKey d "username" = none then some ["field required"] else none⟩

section Lemmas

@[simp] theorem lookupKey_setKey_self (d : Doc) (k : String) (v : Value) :
    lookupKey (setKey d k v) k = some v := by
  induction d with
  | nil => simp [setKey, lookupKey]
  | cons hd tl ih =>
    by_cases h : hd.1 = k
    · simp [setKey, lookupKey, h]
    · simp [setKey, lookupKey, h, ih]

theorem lookupKey_setKey_ne (d : Doc) (k k₁ : String) (v : Value) (h : k ≠ k₁) :
    lookupKey (setKey d k v) k₁ = lookupKey d k₁ := by
  induction d with
  | nil => simp [setKey, lookupKey, h]
  | cons hd tl ih =>
    by_cases h₁ : hd.1 = k
    · simp [setKey, lookupKey, h₁, h]
    · simp [setKey, lookupKey, h₁, ih]

@[simp] theorem Store.get_alloc_self (st : Store) (d : Doc) :
    (st.alloc d).1.get (st.alloc d).2 = d := by
  simp [Store.alloc, Store.get]

@[simp] theorem Store.get_alloc_next (st : Store) (d : Doc) :
    (st.alloc d).1.get st.next = d := by
  simp [Store.alloc, Store.get]

theorem Store.get_alloc_ne (st : Store) (d : Doc) (r : Ref) (h : r ≠ st.next) :
    (st.alloc d).1.get r = st.get r := by
  simp [Store.alloc, Store.get, h]

@[simp] theorem Store.next_alloc (st : Store) (d : Doc) :
    (st.alloc d).1.next = st.next + 1 := rfl

@[simp] theorem Store.snd_alloc (st : Store) (d : Doc) :
    (st.alloc d).2 = st.next := rfl

@[simp] theorem Store.get_setK_self (st : Store) (r : Ref) (k : String) (v : Value) :
    (st.setK r k v).get r = setKey (st.get r) k v := by
  simp [Store.setK, Store.get]

theorem Store.get_setK_ne (st : Store) (r q : Ref) (k : String) (v : Value)
    (h : q ≠ r) : (st.setK r k v).get q = st.get q := by
  simp [Store.setK, Store.get, h]

@[simp] theorem Store.next_setK (st : Store) (r : Ref) (k : String) (v : Value) :
    (st.setK r k v).next = st.next := rfl

end Lemmas

/-- C7 (counterexample): with DATABASE_URL set to the empty string and
DATABASE_NAME set to "appdb", both environment variables are set (non-None)
yet the module-level `db` handle is None, because Python truthiness treats the
empty string as false. -/
theorem C7_counterexample :
    moduleDb (some "") (some "appdb") = none ∧
    (some "" : Option String) ≠ none ∧ (some "appdb" : Option String) ≠ none := by
  refine ⟨?_, by simp, by simp⟩
  simp [moduleDb, pyTruthyStr]

/-- C7 (amended): at import time `db` is non-None iff both DATABASE_URL and
DATABASE_NAME are set to non-empty (truthy) strings; when `db` is None every
document-access function raises its "Database not available" exception and
issues no driver call, leaving the store untouched. -/
theorem C7_db_env_truthiness :
    (∀ url name : Option String,
      (moduleDb url name).isSome = (pyTruthyStr url && pyTruthyStr name)) ∧
    (∀ st c data n₁ n₂ ir, create_document none st c data n₁ n₂ ir =
      (st, [], .error "Database not available. Check DATABASE_URL and DATABASE_NAME environment variables.")) ∧
    (∀ c f l fr, get_documents none c f l fr =
      ([], .error "Database not available. Check DATABASE_URL and DATABASE_NAME environment variables.")) ∧
    (∀ st c f u n ur, update_document none st c f u n ur =
      (st, [], .error "Database not available. Check DATABASE_URL and DATABASE_NAME environment variables.")) ∧
    (∀ c f dr, delete_document none c f dr =
      ([], .error "Database not initialized. Call enable-database first.")) := by
  refine ⟨?_, ?_, ?_, ?_, ?_⟩
  · intro url name
    cases url with
    | none => simp [moduleDb, pyTruthyStr]
    | some u =>
      cases name with
      | none => simp [moduleDb, pyTruthyStr]
      | some n =>
        by_cases hu : u = "" <;> by_cases hn : n = "" <;>
          simp [moduleDb, pyTruthyStr, hu, hn]
  · intro st c data n₁ n₂ ir; rfl
  · intro c f l fr; rfl
  · intro st c f u n ur; rfl
  · intro c f dr; rfl

/-- C6: the shipped schemas module defines no live Pydantic model, so the
schemas endpoint returns ok with an empty map, the validate endpoint reports
every document of every collection valid with the skip message, and every
create/update passes validation: create issues its write and succeeds, and the
update response is fully determined by the ObjectId check and the driver's
modified count — never a validation failure. -/
theorem C6_no_live_schema_validation_skipped :
    get_all_schemas true schemas_models none = .success [] ∧
    (∀ coll doc, validate_document schemas_models coll doc none =
      .success ⟨true, some "No schema defined for this collection, skipping validation", none⟩) ∧
    (∀ n st coll docRef n₁ n₂ rid,
      (ep_create_document (some n) schemas_models st coll docRef none n₁ n₂ (.ok rid)).2.2 =
        .success ⟨rid, "Document created in " ++ coll⟩) ∧
    (∀ n st coll doc_id docRef now mc,
      (ep_update_document (some n) schemas_models st coll doc_id docRef none now (.ok mc)).2.2 =
        if !isValidObjectId doc_id then .failure 400 "Invalid document ID format"
        else if mc = 0 then .failure 404 "Document not found"
        else .success ⟨"Document " ++ doc_id ++ " updated in " ++ coll⟩) := by
  refine ⟨rfl, ?_, ?_, ?_⟩
  · intro coll doc
    rfl
  · intro n st coll docRef n₁ n₂ rid
    rfl
  · intro n st coll doc_id docRef now mc
    by_cases hid : isValidObjectId doc_id = true
    · cases mc with
      | zero =>
        simp [ep_update_document, validate_document, schemaMap, schemas_models,
          lookupAssoc, update_document, hid]
      | succ k =>
        simp [ep_update_document, validate_document, schemaMap, schemas_models,
          lookupAssoc, update_document, hid]
    · simp [ep_update_document, validate_document, schemaMap, schemas_models,
        lookupAssoc, Bool.not_eq_true] at hid ⊢
      simp [hid]

/-- C1: evaluation at the failing input and at the conforming ones.  The GET
/api/database/collections handler violates the claim: with `db` None it
responds 500 (its own `HTTPException(503)` is swallowed by the broad
`except Exception`), while every other database endpoint does return 503 for a
missing database, the PUT/DELETE endpoints return 400 on an invalid ObjectId
string, and a malformed filter JSON gives 400. -/
theorem C1_status_codes_evaluation :
    list_collections none (.ok []) (fun _ => .ok 0) =
      ([], .failure 500 "Error listing collections: 503: Database not connected") ∧
    (get_collection_documents none "users" (.ok ["users"]) (fun _ => .ok 0)
        (fun _ _ _ => .ok [])).2 = .failure 503 "Database not connected" ∧
    (ep_create_document none schemas_models sampleStore "users" 0 none 1 2
        (.ok sampleOid)).2.2 = .failure 503 "Database not connected" ∧
    (ep_update_document none schemas_models sampleStore "users" sampleOid 0 none 3
        (.ok 1)).2.2 = .failure 503 "Database not connected" ∧
    (ep_delete_document none "users" sampleOid (.ok 1)).2 =
      .failure 503 "Database not connected" ∧
    (ep_update_document (some "appdb") schemas_models sampleStore "users"
        "not-an-objectid" 0 none 3 (.ok 1)).2.2 =
      .failure 400 "Invalid document ID format" ∧
    (ep_delete_document (some "appdb") "users" "not-an-objectid" (.ok 1)).2 =
      .failure 400 "Invalid document ID format" ∧
    (get_collection_documents (some "appdb") "users" (.ok ["users"]) (fun _ => .ok 0)
        (fun _ _ _ => .ok []) 100 0 (some ⟨"not json", none⟩)).2 =
      .failure 400 "Invalid filter JSON" := by
  refine ⟨rfl, ?_, rfl, rfl, rfl, ?_, ?_, ?_⟩ <;> decide

/-- C3 (counterexample): delete_document forwards its filter to the driver
unchanged — the forwarded dict carries no `created_at`/`updated_at` key — so
"each of the four document-access functions adds timestamps to the data" is
false of delete_document (and likewise of get_documents, whose forwarded
filter is also the unchanged input). -/
theorem C3_counterexample :
    delete_document (some "appdb") "users" [("email", .str "user@example.com")] (.ok 1) =
      ([.deleteOne "users" [("email", .str "user@example.com")]], .ok true) ∧
    lookupKey [("email", .str "user@example.com")] "created_at" = none ∧
    lookupKey [("email", .str "user@example.com")] "updated_at" = none ∧
    (get_documents (some "appdb") "users" (some [("email", .str "user@example.com")])
        none (.ok [])).1 =
      [.findAll "users" [("email", .str "user@example.com")] none] := by
  exact ⟨rfl, rfl, rfl, rfl⟩

/-- C3 (amended): create_document and update_document add timestamps to the
data; each of the four document-access functions forwards its arguments to a
single driver call, get_documents and delete_document forwarding their filter
unchanged without adding timestamps. -/
theorem C3_single_driver_call_with_timestamps (name coll : String) (st : Store) :
    (∀ data n₁ n₂ ir,
      (create_document (some name) st coll data n₁ n₂ ir).2.1 =
        [.insertOne coll
          (setKey (setKey (pyDataDoc st data) "created_at" (.time n₁)) "updated_at" (.time n₂))]) ∧
    (∀ f data now ur,
      (update_document (some name) st coll f data now ur).2.1 =
        [.updateOne coll f (setKey (pyDataDoc st data) "updated_at" (.time now))]) ∧
    (∀ f l fr,
      (get_documents (some name) coll f l fr).1 =
        [.findAll coll (f.getD [])
          (match l with | none => none | some x => if x = 0 then none else some x)]) ∧
    (∀ f dr, (delete_document (some name) coll f dr).1 = [.deleteOne coll f]) := by
  refine ⟨?_, ?_, ?_, ?_⟩
  · intro data n₁ n₂ ir
    cases data with
    | model fields =>
      cases ir <;> simp [create_document, pyDataDoc]
    | dict r₀ =>
      cases ir <;> simp [create_document, pyDataDoc]
  · intro f data now ur
    cases data with
    | model fields =>
      cases ur <;> simp [update_document, pyDataDoc]
    | dict r₀ =>
      cases ur <;> simp [update_document, pyDataDoc]
  · intro f l fr
    cases f with
    | none => cases fr <;> simp [get_documents]
    | some d =>
      by_cases hd : d = [] <;> cases fr <;> simp [get_documents, hd]
  · intro f dr
    cases dr <;> simp [delete_document]

/-- C4: timestamp stamping happens only on insert and update — the document
create_document hands to `insert_one` carries `created_at` and `updated_at`
set to the two stamping times, the `$set` document update_document hands to
`update_one` carries `updated_at` set to the stamping time while its
`created_at` is exactly the caller data's, and get_documents and
delete_document forward their filter to the driver completely unchanged. -/
theorem C4_stamping_only_on_insert_and_update (name coll : String) (st : Store) :
    (∀ data n₁ n₂ ir, ∃ d,
      (create_document (some name) st coll data n₁ n₂ ir).2.1 = [.insertOne coll d] ∧
      lookupKey d "created_at" = some (.time n₁) ∧
      lookupKey d "updated_at" = some (.time n₂)) ∧
    (∀ f data now ur, ∃ u,
      (update_document (some name) st coll f data now ur).2.1 = [.updateOne coll f u] ∧
      lookupKey u "updated_at" = some (.time now) ∧
      lookupKey u "created_at" = lookupKey (pyDataDoc st data) "created_at") ∧
    (∀ f l fr, ∃ lim,
      (get_documents (some name) coll (some f) l fr).1 =
        [.findAll coll (if f = [] then [] else f) lim]) ∧
    (∀ f dr, (delete_document (some name) coll f dr).1 = [.deleteOne coll f]) := by
  refine ⟨?_, ?_, ?_, ?_⟩
  · intro data n₁ n₂ ir
    refine ⟨setKey (setKey (pyDataDoc st data) "created_at" (.time n₁)) "updated_at" (.time n₂),
      ?_, ?_, by simp⟩
    · cases data with
      | model fields => cases ir <;> simp [create_document, pyDataDoc]
      | dict r₀ => cases ir <;> simp [create_document, pyDataDoc]
    · rw [lookupKey_setKey_ne _ _ _ _ (by decide)]
      simp
  · intro f data now ur
    refine ⟨setKey (pyDataDoc st data) "updated_at" (.time now), ?_, by simp, ?_⟩
    · cases data with
      | model fields => cases ur <;> simp [update_document, pyDataDoc]
      | dict r₀ => cases ur <;> simp [update_document, pyDataDoc]
    · exact lookupKey_setKey_ne _ _ _ _ (by decide)
  · intro f l fr
    refine ⟨match l with | none => none | some x => if x = 0 then none else some x, ?_⟩
    by_cases hf : f = [] <;> cases fr <;> simp [get_documents, hf]
  · intro f dr
    cases dr <;> simp [delete_document]

/-- C10: create_document and update_document never mutate the caller's data:
every dict allocated before the call reads back unchanged afterwards — the
functions copy the dict (or dump the model to a fresh dict) and stamp
timestamps only on the fresh cell. -/
theorem C10_callers_data_never_mutated (name coll : String) (st : Store)
    (r₀ : Ref) (h : r₀ < st.next) :
    (∀ data n₁ n₂ ir,
      ((create_document (some name) st coll data n₁ n₂ ir).1).get r₀ = st.get r₀) ∧
    (∀ f data now ur,
      ((update_document (some name) st coll f data now ur).1).get r₀ = st.get r₀) := by
  have hne : r₀ ≠ st.next := Nat.ne_of_lt h
  constructor
  · intro data n₁ n₂ ir
    cases data with
    | model fields =>
      cases ir <;>
        simp [create_document, Store.get_setK_ne _ _ _ _ _ hne, Store.get_alloc_ne _ _ _ hne]
    | dict r₁ =>
      cases ir <;>
        simp [create_document, Store.get_setK_ne _ _ _ _ _ hne, Store.get_alloc_ne _ _ _ hne]
  · intro f data now ur
    cases data with
    | model fields =>
      cases ur <;>
        simp [update_document, Store.get_setK_ne _ _ _ _ _ hne, Store.get_alloc_ne _ _ _ hne]
    | dict r₁ =>
      cases ur <;>
        simp [update_document, Store.get_setK_ne _ _ _ _ _ hne, Store.get_alloc_ne _ _ _ hne]

/-- C10 witness: on a concrete heap whose caller dict sits at reference 0,
create_document leaves that dict exactly as it was. -/
theorem C10_callers_data_never_mutated_witness :
    0 < sampleStore.next ∧
    ((create_document (some "appdb") sampleStore "users" (.dict 0) 1 2
        (.ok sampleOid)).1).get 0 = sampleStore.get 0 :=
  ⟨by decide,
    (C10_callers_data_never_mutated "appdb" "users" sampleStore 0 (by decide)).1
      (.dict 0) 1 2 (.ok sampleOid)⟩

/-- C2: through the HTTP layer, when a Pydantic model whose lowercased class
name equals the collection name exists in the schemas module, the request body
is validated against it before any write: a validation failure yields 400 and
no driver call is issued, while a validation success lets the write proceed —
both for create and for update (for update, once the ObjectId path parameter
parses); when no such model exists, validation is skipped and the write is
issued unconditionally, again for both create and update. -/
theorem C2_schema_gated_validation (models : List PydanticModel)
    (collection : String) :
    (∀ name m errs st docRef n₁ n₂ ir,
      lookupAssoc (schemaMap models) collection = some m →
      m.validate (st.get docRef) = some errs →
      ep_create_document (some name) models st collection docRef none n₁ n₂ ir =
        (st, [], .failure 400 ("Validation failed: " ++ pyShowList errs))) ∧
    (∀ name m errs st doc_id docRef now ur,
      lookupAssoc (schemaMap models) collection = some m →
      m.validate (st.get docRef) = some errs →
      ep_update_document (some name) models st collection doc_id docRef none now ur =
        (st, [], .failure 400 ("Validation failed: " ++ pyShowList errs))) ∧
    (∀ name m st docRef n₁ n₂ rid,
      lookupAssoc (schemaMap models) collection = some m →
      m.validate (st.get docRef) = none →
      (ep_create_document (some name) models st collection docRef none n₁ n₂ (.ok rid)).2 =
        ([.insertOne collection
            (setKey (setKey (st.get docRef) "created_at" (.time n₁)) "updated_at" (.time n₂))],
          .success ⟨rid, "Document created in " ++ collection⟩)) ∧
    (∀ name st docRef n₁ n₂ rid,
      lookupAssoc (schemaMap models) collection = none →
      (ep_create_document (some name) models st collection docRef none n₁ n₂ (.ok rid)).2 =
        ([.insertOne collection
            (setKey (setKey (st.get docRef) "created_at" (.time n₁)) "updated_at" (.time n₂))],
          .success ⟨rid, "Document created in " ++ collection⟩)) ∧
    (∀ name m st doc_id docRef now mc,
      lookupAssoc (schemaMap models) collection = some m →
      m.validate (st.get docRef) = none →
      isValidObjectId doc_id = true →
      (ep_update_document (some name) models st collection doc_id docRef none now (.ok mc)).2 =
        ([.updateOne collection [("_id", .oid doc_id)]
            (setKey (st.get docRef) "updated_at" (.time now))],
          if mc = 0 then .failure 404 "Document not found"
          else .success ⟨"Document " ++ doc_id ++ " updated in " ++ collection⟩)) ∧
    (∀ name st doc_id docRef now mc,
      lookupAssoc (schemaMap models) collection = none →
      isValidObjectId doc_id = true →
      (ep_update_document (some name) models st collection doc_id docRef none now (.ok mc)).2 =
        ([.updateOne collection [("_id", .oid doc_id)]
            (setKey (st.get docRef) "updated_at" (.time now))],
          if mc = 0 then .failure 404 "Document not found"
          else .success ⟨"Document " ++ doc_id ++ " updated in " ++ collection⟩)) := by
  refine ⟨?_, ?_, ?_, ?_, ?_, ?_⟩
  · intro name m errs st docRef n₁ n₂ ir h₁ h₂
    simp [ep_create_document, validate_document, h₁, h₂]
  · intro name m errs st doc_id docRef now ur h₁ h₂
    simp [ep_update_document, validate_document, h₁, h₂]
  · intro name m st docRef n₁ n₂ rid h₁ h₂
    simp [ep_create_document, validate_document, h₁, h₂, create_document]
  · intro name st docRef n₁ n₂ rid h₁
    simp [ep_create_document, validate_document, h₁, create_document]
  · intro name m st doc_id docRef now mc h₁ h₂ hid
    cases mc with
    | zero => simp [ep_update_document, validate_document, h₁, h₂, hid, update_document]
    | succ k => simp [ep_update_document, validate_document, h₁, h₂, hid, update_document]
  · intro name st doc_id docRef now mc h₁ hid
    cases mc with
    | zero => simp [ep_update_document, validate_document, h₁, hid, update_document]
    | succ k => simp [ep_update_document, validate_document, h₁, hid, update_document]

/-- C2 witness: with the sample `User` model live in the schemas module, a
create into collection "user" with a body missing `username` is rejected with
400 and no driver call; a create into the schema-less collection "widgets" is
written unconditionally; an update into "user" with a body that validates
issues its update_one; and an update into "widgets" issues its update_one with
validation skipped. -/
theorem C2_schema_gated_validation_witness :
    (lookupAssoc (schemaMap [userModel]) "user" = some userModel ∧
      userModel.validate (sampleStore.get 0) = some ["field required"] ∧
      ep_create_document (some "appdb") [userModel] sampleStore "user" 0 none 1 2
          (.ok sampleOid) =
        (sampleStore, [],
          .failure 400 ("Validation failed: " ++ pyShowList ["field required"]))) ∧
    (lookupAssoc (schemaMap [userModel]) "widgets" = none ∧
      (ep_create_document (some "appdb") [userModel] sampleStore "widgets" 0 none 1 2
          (.ok sampleOid)).2 =
        ([.insertOne "widgets"
            (setKey (setKey (sampleStore.get 0) "created_at" (.time 1)) "updated_at" (.time 2))],
          .success ⟨sampleOid, "Document created in " ++ "widgets"⟩)) ∧
    (userModel.validate (userStore.get 0) = none ∧
      (ep_update_document (some "appdb") [userModel] userStore "user" sampleOid 0 none 7
          (.ok 1)).2 =
        ([.updateOne "user" [("_id", .oid sampleOid)]
            (setKey (userStore.get 0) "updated_at" (.time 7))],
          .success ⟨"Document " ++ sampleOid ++ " updated in " ++ "user"⟩)) ∧
    (ep_update_document (some "appdb") [userModel] sampleStore "widgets" sampleOid 0 none 7
        (.ok 1)).2 =
      ([.updateOne "widgets" [("_id", .oid sampleOid)]
          (setKey (sampleStore.get 0) "updated_at" (.time 7))],
        .success ⟨"Document " ++ sampleOid ++ " updated in " ++ "widgets"⟩) :=
  ⟨⟨rfl, rfl,
      (C2_schema_gated_validation [userModel] "user").1 "appdb" userModel
        ["field required"] sampleStore 0 1 2 (.ok sampleOid) rfl rfl⟩,
    ⟨rfl,
      (C2_schema_gated_validation [userModel] "widgets").2.2.2.1 "appdb" sampleStore 0 1 2
        sampleOid rfl⟩,
    ⟨rfl, by
      have h := (C2_schema_gated_validation [userModel] "user").2.2.2.2.1 "appdb" userModel
        userStore sampleOid 0 7 1 rfl rfl (by decide)
      simpa using h⟩,
    by
      have h := (C2_schema_gated_validation [userModel] "widgets").2.2.2.2.2 "appdb"
        sampleStore sampleOid 0 7 1 rfl (by decide)
      simpa using h⟩

/-- C8: update_document returns True iff the driver's modified_count is
positive and delete_document returns True iff deleted_count is positive; the
PUT and DELETE endpoints respond 404 "Document not found" exactly when that
result is False; and under the in-memory `update_one` semantics a PUT whose
filter matches a document that the `$set` (timestamp included) leaves
unchanged has modified_count 0 and therefore returns 404. -/
theorem C8_modified_deleted_count_semantics :
    (∀ name st c f data now mc,
      (update_document (some name) st c f data now (.ok mc)).2.2 =
        .ok (decide (mc > 0))) ∧
    (∀ name c f dc,
      (delete_document (some name) c f (.ok dc)).2 = .ok (decide (dc > 0))) ∧
    (∀ n st c doc_id r now mc, isValidObjectId doc_id = true →
      ((ep_update_document (some n) schemas_models st c doc_id r none now (.ok mc)).2.2 =
          .failure 404 "Document not found" ↔ mc = 0)) ∧
    (∀ n c doc_id dc, isValidObjectId doc_id = true →
      ((ep_delete_document (some n) c doc_id (.ok dc)).2 =
          .failure 404 "Document not found" ↔ dc = 0)) ∧
    (∀ d f u, matchesFilter d f = true → applySet d u = d →
      mongoUpdateOne [d] f u = ([d], 1, 0)) ∧
    (∀ n st c doc_id r now d, isValidObjectId doc_id = true →
      matchesFilter d [("_id", .oid doc_id)] = true →
      applySet d (setKey (st.get r) "updated_at" (.time now)) = d →
      (ep_update_document (some n) schemas_models st c doc_id r none now
          (.ok (mongoUpdateOne [d] [("_id", .oid doc_id)]
            (setKey (st.get r) "updated_at" (.time now))).2.2)).2.2 =
        .failure 404 "Document not found") := by
  refine ⟨?_, ?_, ?_, ?_, ?_, ?_⟩
  · intro name st c f data now mc
    cases data <;> simp [update_document]
  · intro name c f dc
    simp [delete_document]
  · intro n st c doc_id r now mc hid
    cases mc with
    | zero => simp [ep_update_document, validate_document, schemaMap, schemas_models,
        lookupAssoc, update_document, hid]
    | succ k => simp [ep_update_document, validate_document, schemaMap, schemas_models,
        lookupAssoc, update_document, hid]
  · intro n c doc_id dc hid
    cases dc with
    | zero => simp [ep_delete_document, delete_document, hid]
    | succ k => simp [ep_delete_document, delete_document, hid]
  · intro d f u hm hs
    simp [mongoUpdateOne, hm, hs]
  · intro n st c doc_id r now d hid hm hs
    have hzero : (mongoUpdateOne [d] [("_id", .oid doc_id)]
        (setKey (st.get r) "updated_at" (.time now))).2.2 = 0 := by
      simp [mongoUpdateOne, hm, hs]
    rw [hzero]
    simp [ep_update_document, validate_document, schemaMap, schemas_models,
      lookupAssoc, update_document, hid]

/-- C8 witness: with a one-document collection whose document already carries
the stamped `updated_at`, the driver reports modified_count 0 and the PUT
returns 404 even though the document exists; and a driver modified_count of 0
is exactly when the endpoint 404s. -/
theorem C8_modified_deleted_count_semantics_witness :
    ((ep_update_document (some "appdb") schemas_models sampleStore "users" sampleOid 5
        none 7 (.ok 0)).2.2 = .failure 404 "Document not found" ↔ (0 : Nat) = 0) ∧
    (ep_update_document (some "appdb") schemas_models sampleStore "users" sampleOid 5
        none 7 (.ok (mongoUpdateOne [[("_id", .oid sampleOid), ("updated_at", .time 7)]]
          [("_id", .oid sampleOid)]
          (setKey (sampleStore.get 5) "updated_at" (.time 7))).2.2)).2.2 =
      .failure 404 "Document not found" :=
  ⟨C8_modified_deleted_count_semantics.2.2.1 "appdb" sampleStore "users" sampleOid 5 7 0
      (by decide),
    C8_modified_deleted_count_semantics.2.2.2.2.2 "appdb" sampleStore "users" sampleOid 5 7
      [("_id", .oid sampleOid), ("updated_at", .time 7)] (by decide) (by decide) (by decide)⟩

/-- C9: on the collection-listing endpoint the effective document limit is
min(requested, 1000) with defaults limit=100 and skip=0; the driver query and
the response echo that effective limit and the skip; and every returned
document has its `_id` value converted to a string. -/
theorem C9_effective_limit_skip_echo_and_id_strings :
    (∀ n coll names total find lim sk docs,
      coll ∈ names →
      find ([] : Doc) sk (min lim 1000) = .ok docs →
      get_collection_documents (some n) coll (.ok names) (fun _ => .ok total) find
          lim sk none =
        ([.listCollections, .countDocs coll [], .findPage coll [] sk (min lim 1000)],
          .success ⟨coll, docs.map convertId, total, min lim 1000, sk⟩)) ∧
    (∀ n coll names total find lim sk raw fdoc docs,
      coll ∈ names → raw ≠ "" →
      find fdoc sk (min lim 1000) = .ok docs →
      get_collection_documents (some n) coll (.ok names) (fun _ => .ok total) find
          lim sk (some ⟨raw, some fdoc⟩) =
        ([.listCollections, .countDocs coll fdoc, .findPage coll fdoc sk (min lim 1000)],
          .success ⟨coll, docs.map convertId, total, min lim 1000, sk⟩)) ∧
    (∀ n coll lr cr fr,
      get_collection_documents (some n) coll lr cr fr =
        get_collection_documents (some n) coll lr cr fr 100 0 none) ∧
    (∀ d v, lookupKey (convertId d) "_id" = some v → ∃ s, v = .str s) := by
  refine ⟨?_, ?_, ?_, ?_⟩
  · intro n coll names total find lim sk docs hmem hfind
    simp [get_collection_documents, hmem, hfind]
  · intro n coll names total find lim sk raw fdoc docs hmem hraw hfind
    simp [get_collection_documents, hmem, hraw, hfind]
  · intro n coll lr cr fr
    rfl
  · intro d v h
    cases hid : lookupKey d "_id" with
    | none => rw [convertId, hid] at h; rw [hid] at h; cases h
    | some v₀ =>
      rw [convertId, hid, lookupKey_setKey_self] at h
      exact ⟨pyStr v₀, (Option.some_injective _ h).symm⟩

/-- C9 witness: with a requested limit of 5000 the endpoint queries and echoes
the cap 1000 together with the skip 10, and the returned sample document's
`_id` is the ObjectId rendered as a string. -/
theorem C9_effective_limit_skip_echo_and_id_strings_witness :
    get_collection_documents (some "appdb") "users" (.ok ["users"]) (fun _ => .ok 2)
        (fun _ _ _ => .ok [[("_id", .oid sampleOid)], [("name", .str "x")]]) 5000 10 none =
      ([.listCollections, .countDocs "users" [], .findPage "users" [] 10 1000],
        .success ⟨"users",
          [[("_id", .str sampleOid)], [("name", .str "x")]], 2, 1000, 10⟩) ∧
    (∃ s, Value.str sampleOid = Value.str s) := by
  constructor
  · have h := C9_effective_limit_skip_echo_and_id_strings.1 "appdb" "users" ["users"] 2
      (fun _ _ _ => .ok [[("_id", .oid sampleOid)], [("name", .str "x")]]) 5000 10
      [[("_id", .oid sampleOid)], [("name", .str "x")]] (by simp) rfl
    rw [h]
    rfl
  · exact C9_effective_limit_skip_echo_and_id_strings.2.2.2
      [("_id", .oid sampleOid)] (.str sampleOid) rfl

/-- Any failure of the list_collections handler is a 500 (its broad
`except Exception` converts everything, even its own 503). -/
theorem statusBounded_list_collections (db : Option String)
    (lr : Except String (List String)) (cr : String → Except String Nat)
    (s : Nat) (d : String) :
    (list_collections db lr cr).2 = .failure s d →
    s = 400 ∨ s = 404 ∨ s = 500 ∨ s = 503 := by
  intro h
  unfold list_collections at h
  repeat' (first | split at h | dsimp only at h)
  all_goals simp_all

/-- Any failure of the schemas handler is a 400 or a 500. -/
theorem statusBounded_get_all_schemas (io : Bool) (ms : List PydanticModel)
    (ex : Option String) (s : Nat) (d : String) :
    get_all_schemas io ms ex = .failure s d →
    s = 400 ∨ s = 404 ∨ s = 500 ∨ s = 503 := by
  intro h
  unfold get_all_schemas at h
  repeat' (first | split at h | dsimp only at h)
  all_goals simp_all

/-- Any failure of the validate handler is a 500. -/
theorem statusBounded_validate_document (ms : List PydanticModel) (c : String)
    (doc : Doc) (ex : Option String) (s : Nat) (d : String) :
    validate_document ms c doc ex = .failure s d →
    s = 400 ∨ s = 404 ∨ s = 500 ∨ s = 503 := by
  intro h
  unfold validate_document at h
  repeat' (first | split at h | dsimp only at h)
  all_goals simp_all

/-- Any failure of the collection-listing handler is 400, 404, 500 or 503. -/
theorem statusBounded_get_collection_documents (db : Option String) (c : String)
    (lr : Except String (List String)) (cr : Doc → Except String Nat)
    (fr : Doc → Int → Int → Except String (List Doc)) (lim sk : Int)
    (fil : Option JsonText) (s : Nat) (d : String) :
    (get_collection_documents db c lr cr fr lim sk fil).2 = .failure s d →
    s = 400 ∨ s = 404 ∨ s = 500 ∨ s = 503 := by
  intro h
  cases db with
  | none => simp [get_collection_documents] at h; simp_all
  | some n =>
    cases lr with
    | error e => simp [get_collection_documents] at h; simp_all
    | ok names =>
      by_cases hmem : c ∈ names
      · rcases fil with _ | jt
        · rcases hcr : cr [] with e | total
          · simp [get_collection_documents, hmem, hcr] at h; simp_all
          · rcases hfr : fr [] sk (min lim 1000) with e | docs
            · simp [get_collection_documents, hmem, hcr, hfr] at h; simp_all
            · simp [get_collection_documents, hmem, hcr, hfr] at h
        · by_cases hraw : jt.raw = ""
          · rcases hcr : cr [] with e | total
            · simp [get_collection_documents, hmem, hraw, hcr] at h; simp_all
            · rcases hfr : fr [] sk (min lim 1000) with e | docs
              · simp [get_collection_documents, hmem, hraw, hcr, hfr] at h; simp_all
              · simp [get_collection_documents, hmem, hraw, hcr, hfr] at h
          · rcases hp : jt.parsed with _ | fd
            · simp [get_collection_documents, hmem, hraw, hp] at h; simp_all
            · rcases hcr : cr fd with e | total
              · simp [get_collection_documents, hmem, hraw, hp, hcr] at h; simp_all
              · rcases hfr : fr fd sk (min lim 1000) with e | docs
                · simp [get_collection_documents, hmem, hraw, hp, hcr, hfr] at h; simp_all
                · simp [get_collection_documents, hmem, hraw, hp, hcr, hfr] at h
      · simp [get_collection_documents, hmem] at h; simp_all

/-- Any failure of the create handler is 400, 500 or 503. -/
theorem statusBounded_ep_create_document (db : Option String)
    (ms : List PydanticModel) (st : Store) (c : String) (r : Ref)
    (ex : Option String) (n₁ n₂ : Nat) (ir : Except String String)
    (s : Nat) (d : String) :
    (ep_create_document db ms st c r ex n₁ n₂ ir).2.2 = .failure s d →
    s = 400 ∨ s = 404 ∨ s = 500 ∨ s = 503 := by
  intro h
  unfold ep_create_document at h
  repeat' (first | split at h | dsimp only at h)
  all_goals try simp_all
  all_goals
    (rename_i heq
     exact statusBounded_validate_document ms c (st.get r) ex _ _ heq)

/-- Any failure of the update handler is 400, 404, 500 or 503. -/
theorem statusBounded_ep_update_document (db : Option String)
    (ms : List PydanticModel) (st : Store) (c doc_id : String) (r : Ref)
    (ex : Option String) (now : Nat) (ur : Except String Nat)
    (s : Nat) (d : String) :
    (ep_update_document db ms st c doc_id r ex now ur).2.2 = .failure s d →
    s = 400 ∨ s = 404 ∨ s = 500 ∨ s = 503 := by
  intro h
  unfold ep_update_document at h
  repeat' (first | split at h | dsimp only at h)
  all_goals try simp_all
  all_goals
    (rename_i heq
     exact statusBounded_validate_document ms c (st.get r) ex _ _ heq)

/-- Any failure of the delete handler is 400, 404, 500 or 503. -/
theorem statusBounded_ep_delete_document (db : Option String) (c doc_id : String)
    (dr : Except String Nat) (s : Nat) (d : String) :
    (ep_delete_document db c doc_id dr).2 = .failure s d →
    s = 400 ∨ s = 404 ∨ s = 500 ∨ s = 503 := by
  intro h
  unfold ep_delete_document at h
  repeat' (first | split at h | dsimp only at h)
  all_goals simp_all

/-- C5: every error response any HTTP endpoint produces carries one of the
statuses 400, 404, 500, 503 together with a string detail (the type of
`HResp` failures); the three plain endpoints never produce an error response;
and an unexpected exception raised inside a database endpoint (a driver or
validation error) is caught and converted into a 500 response rather than
propagating. -/
theorem C5_error_statuses_and_catch_all :
    (∀ db lr cr s d, (list_collections db lr cr).2 = .failure s d →
      s = 400 ∨ s = 404 ∨ s = 500 ∨ s = 503) ∧
    (∀ io ms ex s d, get_all_schemas io ms ex = .failure s d →
      s = 400 ∨ s = 404 ∨ s = 500 ∨ s = 503) ∧
    (∀ ms c doc ex s d, validate_document ms c doc ex = .failure s d →
      s = 400 ∨ s = 404 ∨ s = 500 ∨ s = 503) ∧
    (∀ db c lr cr fr lim sk fil s d,
      (get_collection_documents db c lr cr fr lim sk fil).2 = .failure s d →
      s = 400 ∨ s = 404 ∨ s = 500 ∨ s = 503) ∧
    (∀ db ms st c r ex n₁ n₂ ir s d,
      (ep_create_document db ms st c r ex n₁ n₂ ir).2.2 = .failure s d →
      s = 400 ∨ s = 404 ∨ s = 500 ∨ s = 503) ∧
    (∀ db ms st c doc_id r ex now ur s d,
      (ep_update_document db ms st c doc_id r ex now ur).2.2 = .failure s d →
      s = 400 ∨ s = 404 ∨ s = 500 ∨ s = 503) ∧
    (∀ db c doc_id dr s d, (ep_delete_document db c doc_id dr).2 = .failure s d →
      s = 400 ∨ s = 404 ∨ s = 500 ∨ s = 503) ∧
    (∀ s d, read_root ≠ .failure s d) ∧
    (∀ s d, hello ≠ .failure s d) ∧
    (∀ io db lr us ns s d, test_database io db lr us ns ≠ .failure s d) ∧
    (∀ n e cr, (list_collections (some n) (.error e) cr).2 =
      .failure 500 ("Error listing collections: " ++ e)) ∧
    (∀ n e total lim sk, (get_collection_documents (some n) "users" (.ok ["users"])
        (fun _ => .ok total) (fun _ _ _ => .error e) lim sk none).2 =
      .failure 500 ("Error fetching documents: " ++ e)) ∧
    (∀ ms c doc e, validate_document ms c doc (some e) =
      .failure 500 ("Error validating document: " ++ e)) ∧
    (∀ n st c r n₁ n₂ e,
      (ep_create_document (some n) schemas_models st c r none n₁ n₂ (.error e)).2.2 =
        .failure 500 ("Error creating document: " ++ e)) ∧
    (∀ n st c r now e,
      (ep_update_document (some n) schemas_models st c sampleOid r none now (.error e)).2.2 =
        .failure 500 ("Error updating document: " ++ e)) ∧
    (∀ n c e, (ep_delete_document (some n) c sampleOid (.error e)).2 =
      .failure 500 ("Error deleting document: " ++ e)) := by
  have hoid : isValidObjectId sampleOid = true := by decide
  refine ⟨statusBounded_list_collections, statusBounded_get_all_schemas,
    statusBounded_validate_document, statusBounded_get_collection_documents,
    statusBounded_ep_create_document, statusBounded_ep_update_document,
    statusBounded_ep_delete_document, ?_, ?_, ?_, ?_, ?_, ?_, ?_, ?_, ?_⟩
  · intro s d h; cases h
  · intro s d h; cases h
  · intro io db lr us ns s d h; cases h
  · intro n e cr; rfl
  · intro n e total lim sk; rfl
  · intro ms c doc e; rfl
  · intro n st c r n₁ n₂ e; rfl
  · intro n st c r now e
    simp [ep_update_document, validate_document, schemas_models, schemaMap,
      lookupAssoc, hoid, update_document]
  · intro n c e
    simp [ep_delete_document, delete_document, hoid]

/-- C5 witness: a concrete delete with the database missing produces a
failure, whose status the bound confirms is one of the four. -/
theorem C5_error_statuses_and_catch_all_witness :
    (503 : Nat) = 400 ∨ (503 : Nat) = 404 ∨ (503 : Nat) = 500 ∨ (503 : Nat) = 503 :=
  C5_error_statuses_and_catch_all.2.2.2.2.2.2.1 none "users" sampleOid (.ok 1)
    503 "Database not connected" rfl
